import Mathlib

/-!
Shallow embedding of the three document generators of the repository
`GhidraDragon/Bo_VS_Amazon_Inc`:

  * `gen_complaint.py`  — `generate_civil_action_pdf` builds a platypus
    story (a Python list of flowables) and renders it with `doc.build`;
  * `gen_cover.py`      — `create_civil_cover_sheet` builds a `content`
    list (paragraphs, spacers, tables) and renders it with `doc.build`;
  * `gen_fee_waiver.py` — `generate_fee_waiver_request` draws directly on
    a pdfgen canvas and saves it.

Pure data (styles, block sequences, page geometry, CLI path resolution,
printed messages) is translated directly from the source.  The rendering
engine itself is the third-party ReportLab library and is kept abstract;
where a claim is about the spec's document-assembly abstraction that the
source only exercises through ReportLab (style registry, table validation,
explicit page breaks), the abstraction is modelled from the spec and marked
as such in its doc comment.
-/

set_option maxRecDepth 100000

set_option maxHeartbeats 1000000

namespace BoVsAmazon

/-- `reportlab.lib.units.inch` (72 points). -/
def inch : ℚ := 72

/-- `reportlab.lib.pagesizes.letter` / `LETTER`: 8.5in × 11in in points. -/
def letter : ℚ × ℚ := (612, 792)

/-- `reportlab.lib.enums.TA_LEFT`. -/
def TA_LEFT : Nat := 0

/-- `reportlab.lib.enums.TA_CENTER`. -/
def TA_CENTER : Nat := 1

/-- `reportlab.lib.enums.TA_JUSTIFY`. -/
def TA_JUSTIFY : Nat := 4

/-- A paragraph style as constructed by the scripts: the style's unique
name, the name of the parent style it inherits from, and exactly the
attributes the script sets explicitly (`none` = inherited from the
parent).  This mirrors the keyword arguments of each
`ParagraphStyle(...)` call in the source. -/
structure ParagraphStyle where
  name : String
  parent : Option String := none
  fontSize : Option ℚ := none
  leading : Option ℚ := none
  alignment : Option Nat := none
  spaceBefore : Option ℚ := none
  spaceAfter : Option ℚ := none
  leftIndent : Option ℚ := none
  bulletIndent : Option ℚ := none
  bulletFontName : Option String := none
  bulletFontSize : Option ℚ := none
  textColor : Option String := none
deriving DecidableEq, Repr

/-- Entries of the third-party sample style sheet
(`getSampleStyleSheet()`) that the scripts reference, either directly or
as parents.  Only their names are significant to the repository's code. -/
def stylesheetNormal : ParagraphStyle := { name := "Normal" }

def stylesheetTitle : ParagraphStyle := { name := "Title" }

def stylesheetHeading1 : ParagraphStyle := { name := "Heading1" }

def stylesheetHeading2 : ParagraphStyle := { name := "Heading2" }

/-- One cell of a platypus table: the scripts always put a
`Paragraph(text, style)` in each cell. -/
structure TableCell where
  text : String
  style : ParagraphStyle
deriving DecidableEq, Repr

/-- `TableStyle` commands used in `gen_cover.py`. -/
inductive TableCmd
  | valign (a b : Int × Int) (v : String)
  | lineBelow (a b : Int × Int) (w : ℚ) (color : String)
  | bottomPadding (a b : Int × Int) (p : ℚ)
deriving DecidableEq, Repr

/-- A content block (platypus flowable) as appended by the scripts. -/
inductive Block
  | paragraph (text : String) (style : ParagraphStyle)
  | spacer (w h : ℚ)
  | pageBreak
  | table (rows : List (List TableCell)) (colWidths : List ℚ)
      (hAlign : String) (cmds : List TableCmd)
deriving DecidableEq, Repr

/-- Page geometry and metadata of a `SimpleDocTemplate(...)` call. -/
structure DocTemplate where
  filename : String
  pagesize : ℚ × ℚ
  leftMargin : ℚ
  rightMargin : ℚ
  topMargin : ℚ
  bottomMargin : ℚ
  title : Option String := none
  author : Option String := none
  subject : Option String := none
deriving DecidableEq, Repr

/-- `story.append(b)` / `content.append(b)`: add one block at the end. -/
def appendBlock (doc : List Block) (b : Block) : List Block := doc ++ [b]

/-- Running a sequence of `append` calls (in call order) from the empty
document, as the scripts do before handing the result to `doc.build`. -/
def runAppends (bs : List Block) : List Block := bs.foldl appendBlock []

/-- The per-item bullet loop of `gen_complaint.py`:
`for bp in items: story.append(Paragraph(f"• " + bp, style))`. -/
def bulletBlocks (items : List String) (style : ParagraphStyle) : List Block :=
  items.map fun bp => Block.paragraph ("• " ++ bp) style

/-- The styles a block references: its own style for a paragraph, the
styles of all cells for a table, none for spacers and page breaks. -/
def blockStyles : Block → List ParagraphStyle
  | .paragraph _ s => [s]
  | .spacer _ _ => []
  | .pageBreak => []
  | .table rows _ _ _ => rows.foldr (fun row acc => row.map TableCell.style ++ acc) []

/-- Error taxonomy of the spec (section 7). -/
inductive DocError
  | duplicateStyleError (name : String)
  | unknownStyleError
  | malformedTableError
deriving DecidableEq, Repr

end BoVsAmazon

namespace BoVsAmazon.FeeWaiver

/-- Operations performed on the pdfgen canvas by
`generate_fee_waiver_request`. -/
inductive CanvasOp
  | setTitle (t : String)
  | setFont (fontName : String) (size : ℚ)
  | drawString (x y : ℚ) (text : String)
  | showPage
  | save
deriving DecidableEq, Repr

/-- `line_spacing = 14` in `generate_fee_waiver_request`. -/
def line_spacing : ℚ := 14

/-- The inner loop of `draw_multiline_text`: draw each wrapped line at
`(x, y)`, moving `y` down by `line_spacing` per line; returns the drawn
operations and the final `y`. -/
def drawLines (x : ℚ) : List String → ℚ → List CanvasOp × ℚ
  | [], y => ([], y)
  | l :: ls, y =>
      let rest := drawLines x ls (y - line_spacing)
      (CanvasOp.drawString x y l :: rest.1, rest.2)

/-- `draw_multiline_text(c, text, x, y)`: wrap `text` with the
third-party `simpleSplit` (kept abstract as the `wrap` argument) and draw
the lines downward from `(x, y)`. -/
def draw_multiline_text (wrap : String → List String) (text : String)
    (x y : ℚ) : List CanvasOp × ℚ :=
  drawLines x (wrap text) y

/-- Court-information text of `gen_fee_waiver.py` (`text_court`). -/
def text_court : String :=
  "Superior Court of Washington\n" ++
  "County of King\n" ++
  "Case Number: FW25-000155 SEA\n" ++
  "Case Title: SHANG VS AMAZON INC\n"

/-- Applicant statement of `gen_fee_waiver.py` (`text_statement`). -/
def text_statement : String :=
  "I, the undersigned, hereby request a waiver of fees for the above-referenced case. " ++
  "I am currently receiving MA Medicaid benefits and am unable to pay the court fees " ++
  "without substantial hardship to myself and/or my dependents.\n\n" ++
  "I declare that the following information is true and complete to the best of my knowledge:\n\n" ++
  "1. Full Name of Applicant: Bo Shang\n" ++
  "2. Address: 10 McCafferty Way, Burlington MA 01803\n" ++
  "3. Phone Number: 781-999-4101\n" ++
  "4. Date of Birth: 06/06/1988\n" ++
  "5. Government Assistance Received: MA Medicaid (Active)\n\n" ++
  "I understand that by requesting this fee waiver, the Court may require additional documentation " ++
  "in support of my financial situation and my receipt of government benefits. " ++
  "I agree to provide such documentation if requested.\n\n" ++
  "Under penalty of perjury under the laws of the State of Washington, I certify that " ++
  "the information provided in this request is true and correct."

/-- The full sequence of canvas operations of
`generate_fee_waiver_request`, in program order; the text wrapping of the
third-party `simpleSplit` is kept abstract as `wrap`.  The output path is
used only as the canvas's file target, never in the drawn content. -/
def ops (wrap : String → List String) : List CanvasOp :=
  let x_left := inch
  let y_top : ℚ := 792 - inch
  let afterHeading := y_top - 2 * line_spacing
  let court := draw_multiline_text wrap text_court x_left afterHeading
  let afterCourt := court.2 - line_spacing
  let statement := draw_multiline_text wrap text_statement x_left afterCourt
  let ySig := statement.2 - 2 * line_spacing
  [CanvasOp.setTitle ("Fee Waiver Request - Bo Shang"),
   CanvasOp.setFont ("Times-Roman") 12,
   CanvasOp.setFont ("Times-Bold") 14,
   CanvasOp.drawString x_left y_top ("Fee Waiver Request"),
   CanvasOp.setFont ("Times-Roman") 12] ++
  court.1 ++
  statement.1 ++
  [CanvasOp.drawString x_left ySig
     ("Signature (on behalf of Applicant): _______Bo Shang______   Date: ___2/13/2025__"),
   CanvasOp.drawString x_left (ySig - line_spacing) ("Signed By: /s/ Bo Shang"),
   CanvasOp.showPage,
   CanvasOp.save]

/-- `generate_fee_waiver_request(output_path)`: the canvas writes to
`output_path`; everything drawn is independent of it. -/
def generate_fee_waiver_request (output_path : String)
    (wrap : String → List String) : String × List CanvasOp :=
  (output_path, ops wrap)

/-- `main()` of `gen_fee_waiver.py`: the output path is the fixed
filename; command-line arguments are never consulted. -/
def mainOutputPath (_args : List String) : String :=
  "Fee_Waiver_Request_Bo_Shang.pdf"

/-- The confirmation printed by `main()`; `os.path.abspath` is kept
abstract as `abspath`. -/
def mainMessage (abspath : String → String) : String :=
  "PDF generated and saved as: " ++ abspath ("Fee_Waiver_Request_Bo_Shang.pdf")

end BoVsAmazon.FeeWaiver

namespace BoVsAmazon.Complaint

/-- `style_title` of `gen_complaint.py`. -/
def style_title : ParagraphStyle :=
  { name := "TitleStyle", parent := some ("Title"), fontSize := some 16,
    leading := some 20, alignment := some TA_CENTER, spaceAfter := some 12 }

/-- `style_subtitle` of `gen_complaint.py`. -/
def style_subtitle : ParagraphStyle :=
  { name := "SubtitleStyle", parent := some ("Title"), fontSize := some 14,
    leading := some 18, alignment := some TA_CENTER, spaceAfter := some 6 }

/-- `style_heading` of `gen_complaint.py`. -/
def style_heading : ParagraphStyle :=
  { name := "HeadingStyle", parent := some ("Heading1"), fontSize := some 12,
    leading := some 14, spaceAfter := some 6, spaceBefore := some 12 }

/-- `style_paragraph` of `gen_complaint.py`. -/
def style_paragraph : ParagraphStyle :=
  { name := "ParagraphStyle", parent := some ("Normal"), fontSize := some 10.5,
    leading := some 14, alignment := some TA_JUSTIFY, spaceAfter := some 6 }

/-- `style_paragraph_indent` of `gen_complaint.py` (defined, never used). -/
def style_paragraph_indent : ParagraphStyle :=
  { name := "ParagraphIndentStyle", parent := some ("ParagraphStyle"),
    leftIndent := some 20 }

/-- `style_bulleted_list` of `gen_complaint.py`. -/
def style_bulleted_list : ParagraphStyle :=
  { name := "BulletedListStyle", parent := some ("ParagraphStyle"),
    bulletIndent := some 20, leftIndent := some 40,
    bulletFontName := some ("Helvetica"), bulletFontSize := some 10.5,
    leading := some 14 }

/-- `style_paragraph_centered` of `gen_complaint.py`. -/
def style_paragraph_centered : ParagraphStyle :=
  { name := "CenteredParagraphStyle", parent := some ("ParagraphStyle"),
    alignment := some TA_CENTER }

/-- All styles in scope in `generate_civil_action_pdf`: the sample-sheet
entries it references plus its own `ParagraphStyle` definitions, in
definition order. -/
def definedStyles : List ParagraphStyle :=
  [stylesheetNormal, stylesheetTitle, stylesheetHeading1,
   style_title, style_subtitle, style_heading, style_paragraph,
   style_paragraph_indent, style_bulleted_list, style_paragraph_centered]

/-- `bullet_points_intro_1`. -/
def bullet_points_intro_1 : List String :=
  ["Required Plaintiff to drop off the return in person at an Amazon-approved location; and",
   "Imposed a 20% restocking fee due to a purported 90-day return limit — even though the device’s " ++
   "stolen status was unknown to Plaintiff until after that period."]

/-- `bullet_points_8`. -/
def bullet_points_8 : List String :=
  ["On or about [date of purchase], Plaintiff purchased a Google Pixel 7A smartphone from Amazon. " ++
   "The product was labeled “Prime,” suggesting either it was sold by Amazon or fulfilled by " ++
   "Amazon on behalf of a third-party seller.",
   "Plaintiff received and used the phone but subsequently discovered, through [documentation from " ++
   "manufacturer/mobile carrier/police report/other source], that the device had been reported " ++
   "stolen before Plaintiff’s purchase."]

/-- `bullet_points_9`. -/
def bullet_points_9 : List String :=
  ["Plaintiff promptly informed Amazon Customer Service of the phone’s stolen status and requested a refund.",
   "Amazon instructed Plaintiff to drop off the device at an approved Amazon or carrier location. " ++
   "Plaintiff was forced to personally handle and transport the stolen item at his own expense " ++
   "and inconvenience."]

/-- `bullet_points_10`. -/
def bullet_points_10 : List String :=
  ["Amazon refused to process the return without a 20% restocking fee, asserting that the phone was " ++
   "outside the 90-day return window.",
   "Plaintiff contends that the stolen status was not discoverable through normal use until after " ++
   "this arbitrary deadline; moreover, it is unconscionable to charge any restocking fee for " ++
   "returning a stolen product that never should have been sold in the first place."]

/-- `bullet_points_11`. -/
def bullet_points_11 : List String :=
  ["Plaintiff relied on Amazon’s representations of safety, security, and product legitimacy, " ++
   "especially for “Prime” products.",
   "Plaintiff incurred financial, legal, and practical harm, including the inconvenience and " ++
   "potential liability of possessing stolen goods, time and travel costs for dropping off " ++
   "the return, and the 20% restocking fee demanded by Amazon."]

/-- `bullet_points_12`. -/
def bullet_points_12 : List String :=
  ["By labeling the Pixel 7A purchase with “Prime,” Amazon effectively represented to Plaintiff " ++
   "that the item was vetted or at least subject to certain quality and authenticity controls.",
   "Plaintiff contends Amazon either owned the device before sale (as part of its Fulfillment by " ++
   "Amazon stock) or acted as a primary facilitator, thus materially controlling the transaction.",
   "In numerous marketing statements, Amazon promotes its marketplace as safe and reliable, " ++
   "guaranteeing customers they can “buy with confidence” under programs such as “A-to-Z Guarantee.” " ++
   "However, these assurances proved hollow in Plaintiff’s case."]

/-- `bullet_points_damages`. -/
def bullet_points_damages : List String :=
  ["1. Compensatory Damages: For all losses, including but not limited to the purchase price " ++
   "of the Pixel 7A, related fees, costs incurred to return the stolen device, and any other " ++
   "economic losses.",
   "2. Treble Damages: As allowed under RCW 19.86.090 for violations of the Washington " ++
   "Consumer Protection Act, up to the statutory maximum.",
   "3. Injunctive Relief: <br/>" ++
   "• Enjoining Defendant from imposing restocking fees on products that turn out to be stolen.<br/>" ++
   "• Requiring Defendant to improve inventory and fulfillment procedures to prevent future sales " ++
   "of stolen property.",
   "4. Attorneys’ Fees and Costs: Pursuant to RCW 19.86.090 (for CPA violations) and any other " ++
   "applicable provision of law.",
   "5. Pre- and Post-Judgment Interest: As permitted by law.",
   "6. Such Other and Further Relief as the Court deems just, equitable, and proper."]

/-- The `story.append(...)` calls of `generate_civil_action_pdf`, in
program order (the four `for bp in ...` bullet loops appear as
`bulletBlocks` segments).  This is the sequence of blocks appended. -/
def story_appends : List Block :=
  [Block.paragraph ("SUPERIOR COURT OF WASHINGTON<br/>FOR KING COUNTY") style_title,
   Block.spacer 1 4,
   Block.paragraph
     ("BO SHANG, an individual,<br/>Plaintiff,<br/><br/>v.<br/><br/>" ++
      "AMAZON.COM, INC., a Delaware corporation,<br/>Defendant.<br/><br/>" ++
      "Case No. __________")
     style_paragraph_centered,
   Block.spacer 1 12,
   Block.paragraph ("COMPLAINT FOR DAMAGES, INJUNCTIVE RELIEF, AND OTHER RELIEF") style_subtitle,
   Block.spacer 1 24,
   Block.paragraph ("I. INTRODUCTION") style_heading,
   Block.paragraph
     ("1. Plaintiff, Bo Shang (“Plaintiff”), brings this action against Amazon.com, Inc. " ++
      "(“Amazon” or “Defendant”), alleging that Defendant sold or facilitated the sale of " ++
      "a stolen Google Pixel 7A smartphone through its Prime shipping program. " ++
      "Plaintiff contends that after discovering the phone was stolen, Amazon:")
     style_paragraph] ++
  bulletBlocks bullet_points_intro_1 style_bulleted_list ++
  [Block.paragraph
     ("2. Plaintiff seeks compensatory damages, equitable relief, attorneys’ fees " ++
      "(if permitted by law), and any other relief deemed just and proper.")
     style_paragraph,
   Block.paragraph ("II. JURISDICTION AND VENUE") style_heading,
   Block.paragraph
     ("3. Subject Matter Jurisdiction: This Court has jurisdiction over the claims asserted herein " ++
      "under RCW 2.08.010, which grants the Superior Court original jurisdiction in all civil actions " ++
      "where the value of the claim exceeds the jurisdictional limits of inferior courts.")
     style_paragraph,
   Block.paragraph
     ("4. Personal Jurisdiction: Defendant Amazon.com, Inc. is headquartered in Seattle, Washington, " ++
      "transacts substantial business in King County, and has purposely availed itself of the benefits " ++
      "and protections of Washington laws. Therefore, personal jurisdiction is proper under RCW 4.28.185 " ++
      "and general principles of due process.")
     style_paragraph,
   Block.paragraph
     ("5. Venue: Venue is proper in King County under RCW 4.12.025(1) because Defendant’s principal place " ++
      "of business is in King County, and a substantial part of the events or omissions giving rise to " ++
      "Plaintiff’s claims occurred in King County.")
     style_paragraph,
   Block.paragraph ("III. PARTIES") style_heading,
   Block.paragraph
     ("6. Plaintiff, Bo Shang (“Plaintiff”), is an individual residing in [County/State], who purchased " ++
      "a Pixel 7A smartphone from Amazon’s platform under the Amazon Prime shipping program.")
     style_paragraph,
   Block.paragraph
     ("7. Defendant, Amazon.com, Inc. (“Amazon” or “Defendant”), is a Delaware corporation with its " ++
      "principal place of business located at 410 Terry Avenue North, Seattle, Washington 98109.")
     style_paragraph,
   Block.paragraph ("IV. FACTUAL BACKGROUND") style_heading,
   Block.paragraph ("8. Purchase and Discovery of Stolen Status:") style_paragraph] ++
  bulletBlocks bullet_points_8 style_bulleted_list ++
  [Block.paragraph ("9. Notification to Amazon:") style_paragraph] ++
  bulletBlocks bullet_points_9 style_bulleted_list ++
  [Block.paragraph ("10. Restocking Fee Imposed:") style_paragraph] ++
  bulletBlocks bullet_points_10 style_bulleted_list ++
  [Block.paragraph ("11. Harm to Plaintiff:") style_paragraph] ++
  bulletBlocks bullet_points_11 style_bulleted_list ++
  [Block.paragraph ("12. Amazon’s Role and Representations:") style_paragraph] ++
  bulletBlocks bullet_points_12 style_bulleted_list ++
  [Block.paragraph ("V. CAUSES OF ACTION") style_heading,
   Block.paragraph
     ("Plaintiff realleges and incorporates by reference each of the preceding paragraphs as though " ++
      "fully set forth herein.")
     style_paragraph,
   Block.paragraph
     ("COUNT I – VIOLATION OF THE WASHINGTON CONSUMER PROTECTION ACT (RCW 19.86)")
     style_heading,
   Block.paragraph
     ("13. The Washington Consumer Protection Act (“WCPA”), codified at RCW 19.86, " ++
      "prohibits unfair or deceptive acts or practices in the conduct of trade or commerce.")
     style_paragraph,
   Block.paragraph
     ("14. Defendant, by enabling the sale of stolen goods under the Amazon Prime program and by " ++
      "imposing an unconscionable restocking fee when the item was finally discovered to be stolen, " ++
      "committed one or more unfair or deceptive acts or practices likely to mislead a reasonable " ++
      "consumer.")
     style_paragraph,
   Block.paragraph
     ("15. Case Law Support:<br/>" ++
      "• <i>Hangman Ridge Training Stables, Inc. v. Safeco Title Ins. Co.</i>, 105 Wn.2d 778, " ++
      "784–85 (1986) (stating the elements for a private action under the WCPA, including unfair " ++
      "or deceptive acts, occurring in trade or commerce, that affect the public interest, and " ++
      "cause injury).<br/>" ++
      "• <i>Klem v. Washington Mut. Bank</i>, 176 Wn.2d 771, 787 (2013) (affirming that an act " ++
      "need only have the capacity to deceive a substantial portion of the public to violate the CPA).")
     style_paragraph,
   Block.paragraph
     ("16. Amazon’s acts and omissions proximately caused injury to Plaintiff’s business or property, " ++
      "including monetary loss and other damages, thus violating RCW 19.86.020.")
     style_paragraph,
   Block.paragraph
     ("17. Pursuant to RCW 19.86.090, Plaintiff seeks actual damages, treble damages up to statutory " ++
      "limits, and reasonable attorneys’ fees and costs.")
     style_paragraph,
   Block.paragraph
     ("COUNT II – BREACH OF IMPLIED WARRANTY OF MERCHANTABILITY (RCW 62A.2-314)")
     style_heading,
   Block.paragraph
     ("18. Under RCW 62A.2-314, every contract for the sale of goods includes an implied warranty " ++
      "of merchantability, which ensures the product is fit for the ordinary purposes for which goods " ++
      "of that kind are used, and that the product is lawfully sold (not stolen).")
     style_paragraph,
   Block.paragraph
     ("19. By advertising and fulfilling the sale of a stolen Google Pixel 7A, Defendant breached " ++
      "the implied warranty of merchantability, as stolen merchandise cannot be lawfully resold " ++
      "and is inherently unfit for normal ownership and use.")
     style_paragraph,
   Block.paragraph
     ("20. Case Law Support:<br/>" ++
      "• <i>Baughn v. Honda Motor Co., Ltd.</i>, 107 Wn.2d 127, 151 (1986) (discussing implied warranties " ++
      "in the context of consumer goods).<br/>" ++
      "• <i>Touchet Valley Grain Growers, Inc. v. Opp &amp; Seibold Gen. Constr., Inc.</i>, 119 Wn.2d " ++
      "334, 341 (1992) (outlining the scope of implied warranties under Washington’s Uniform Commercial Code).")
     style_paragraph,
   Block.paragraph
     ("21. As a direct and proximate result of Defendant’s breach, Plaintiff suffered damages in " ++
      "an amount to be proven at trial.")
     style_paragraph,
   Block.paragraph
     ("COUNT III – NEGLIGENCE / NEGLIGENT MISREPRESENTATION")
     style_heading,
   Block.paragraph
     ("22. Defendant owed a duty of care to Plaintiff as a consumer who relied on Defendant’s " ++
      "platform and “Prime” services. Given Amazon’s representations of safety and security, " ++
      "it had a duty to prevent the sale of stolen goods or at least conduct reasonable checks.")
     style_paragraph,
   Block.paragraph
     ("23. Defendant breached this duty by failing to implement adequate inventory control, " ++
      "screening, or verification processes to ensure that items sold or fulfilled via Amazon " ++
      "Prime were not stolen property.")
     style_paragraph,
   Block.paragraph
     ("24. Case Law Support:<br/>" ++
      "• <i>Mbewe v. Amazon.com, Inc.</i>, No. 2:18-cv-00848-RAJ, 2019 WL 2994693 (W.D. Wash. July 9, 2019) " ++
      "(while not a final published opinion on negligence, referencing Amazon’s potential duty of care " ++
      "when fulfilling goods through its marketplace).<br/>" ++
      "• <i>Erie Ins. Co. v. Amazon.com, Inc.</i>, 925 F.3d 135 (4th Cir. 2019) (persuasive authority from " ++
      "another Circuit analyzing Amazon’s responsibilities as a seller or facilitator).")
     style_paragraph,
   Block.paragraph
     ("25. Plaintiff relied on Amazon’s statements and “Prime” labeling, believing the product was " ++
      "legitimate and non-stolen. Plaintiff would not have purchased the phone had he known it was stolen.")
     style_paragraph,
   Block.paragraph
     ("26. This reliance was justifiable given Amazon’s longstanding marketing as a trusted " ++
      "e-commerce platform. Defendant’s negligent conduct directly and proximately caused harm " ++
      "to Plaintiff, including but not limited to the cost of the phone, the time and expense of " ++
      "the forced return, and the imposed restocking fee.")
     style_paragraph,
   Block.paragraph ("VI. DAMAGES AND RELIEF SOUGHT") style_heading,
   Block.paragraph
     ("WHEREFORE, Plaintiff respectfully requests judgment in his favor as follows:")
     style_paragraph] ++
  bulletBlocks bullet_points_damages style_bulleted_list ++
  [Block.paragraph ("VII. JURY DEMAND") style_heading,
   Block.paragraph
     ("Pursuant to CR 38 of the Washington Superior Court Civil Rules, Plaintiff demands " ++
      "trial by jury on all issues so triable.")
     style_paragraph,
   Block.paragraph ("PRAYER FOR RELIEF") style_heading,
   Block.paragraph
     ("WHEREFORE, Plaintiff, Bo Shang, prays for judgment against Defendant, Amazon.com, Inc., " ++
      "in an amount to be proven at trial, including but not limited to compensatory and statutory " ++
      "damages, along with equitable relief, interest, costs, and attorneys’ fees (if allowed by " ++
      "law), and for such other relief as this Court deems just and proper.")
     style_paragraph,
   Block.spacer 1 12,
   Block.paragraph
     ("DATED this 4 day of Feb, 2025.<br/><br/>" ++
      "Respectfully submitted,<br/><br/>" ++
      "__________________________<br/>" ++
      "Bo Shang (Pro Se)<br/>" ++
      "10 McCafferty Way<br/>" ++
      "781-999-4101<br/>" ++
      "bo@shang.software<br/>" ++
      "Pro Se")
     style_paragraph,
   Block.pageBreak,
   Block.paragraph ("EXHIBIT 1:") style_heading,
   Block.spacer 1 12,
   Block.paragraph
     ("Placeholder for Exhibit 1 content (e.g., documentation from manufacturer, mobile carrier, " ++
      "police report, or other source).")
     style_paragraph,
   Block.pageBreak,
   Block.paragraph ("EXHIBIT 2:") style_heading,
   Block.spacer 1 12,
   Block.paragraph ("Placeholder for Exhibit 2 content.") style_paragraph,
   Block.pageBreak,
   Block.paragraph ("EXHIBIT 3:") style_heading,
   Block.spacer 1 12,
   Block.paragraph ("Placeholder for Exhibit 3 content.") style_paragraph,
   Block.pageBreak,
   Block.paragraph ("EXHIBIT 4:") style_heading,
   Block.spacer 1 12,
   Block.paragraph ("Placeholder for Exhibit 4 content.") style_paragraph]

/-- The `story` list handed to `doc.build`: the result of running all the
append calls from the empty list. -/
def story : List Block := runAppends story_appends

/-- The `SimpleDocTemplate(...)` of `generate_civil_action_pdf`; the
output path flows only into the template's file target. -/
def docTemplate (output_filename : String) : DocTemplate :=
  { filename := output_filename, pagesize := letter,
    leftMargin := 1 * inch, rightMargin := 1 * inch,
    topMargin := 0.75 * inch, bottomMargin := 0.75 * inch,
    title := some ("Civil Action Complaint"),
    author := some ("Bo Shang"),
    subject := some ("Complaint for Damages, Injunctive Relief, and Other Relief") }

/-- What `generate_civil_action_pdf(output_filename)` computes before the
external render call: the document template, the styles in scope, the
block sequence, and the message printed after a successful build. -/
def generate_civil_action_pdf (output_filename : String) :
    DocTemplate × List ParagraphStyle × List Block × String :=
  (docTemplate output_filename, definedStyles, story,
   "PDF generated successfully: " ++ output_filename)

/-- `main()` of `gen_complaint.py`:
`output_file = "CivilActionComplaint.pdf"; if len(sys.argv) > 1:
output_file = sys.argv[1]`.  `args` is `sys.argv[1:]`. -/
def mainOutputPath (args : List String) : String :=
  match args with
  | [] => "CivilActionComplaint.pdf"
  | p :: _ => p

end BoVsAmazon.Complaint

namespace BoVsAmazon.Cover

/-- `style_title` of `gen_cover.py` (`CoverSheetTitle`). -/
def style_title : ParagraphStyle :=
  { name := "CoverSheetTitle", parent := some ("Heading1"), fontSize := some 14,
    leading := some 18, alignment := some 1, spaceAfter := some 10 }

/-- `style_section` of `gen_cover.py` (`CoverSheetSection`). -/
def style_section : ParagraphStyle :=
  { name := "CoverSheetSection", parent := some ("Heading2"), fontSize := some 12,
    leading := some 14, spaceBefore := some 12, spaceAfter := some 4 }

/-- `style_label` of `gen_cover.py` (`LabelStyle`). -/
def style_label : ParagraphStyle :=
  { name := "LabelStyle", parent := some ("Normal"), fontSize := some 10,
    leading := some 12, textColor := some ("black"), spaceAfter := some 2 }

/-- `style_field` of `gen_cover.py` (`FieldStyle`). -/
def style_field : ParagraphStyle :=
  { name := "FieldStyle", parent := some ("Normal"), fontSize := some 10,
    leading := some 12, textColor := some ("black"), spaceAfter := some 5 }

/-- All styles in scope in `create_civil_cover_sheet`: the sample-sheet
entries it references plus its own `ParagraphStyle` definitions, in
definition order. -/
def definedStyles : List ParagraphStyle :=
  [stylesheetNormal, stylesheetHeading1, stylesheetHeading2,
   style_title, style_section, style_label, style_field]

/-- The `TableStyle` shared by the first four tables of `gen_cover.py`:
VALIGN TOP, LINEBELOW on all cells, BOTTOMPADDING 6. -/
def fullGridCmds : List TableCmd :=
  [TableCmd.valign (0, 0) (-1, -1) ("TOP"),
   TableCmd.lineBelow (0, 0) (-1, -1) 0.25 ("black"),
   TableCmd.bottomPadding (0, 0) (-1, -1) 6]

/-- `case_info_data`. -/
def case_info_data : List (List TableCell) :=
  [[{ text := "<b>Case Number:</b>", style := style_label },
    { text := "___________ (Assigned by Clerk)", style := style_field }],
   [{ text := "<b>Case Title:</b>", style := style_label },
    { text := "Bo Shang v. Amazon.com, Inc.", style := style_field }],
   [{ text := "<b>Date of Filing:</b>", style := style_label },
    { text := "February 4, 2025", style := style_field }],
   [{ text := "<b>Judge Assigned (if known):</b>", style := style_label },
    { text := "", style := style_field }]]

/-- `plaintiff_data`. -/
def plaintiff_data : List (List TableCell) :=
  [[{ text := "<b>Plaintiff Name(s):</b>", style := style_label },
    { text := "1)  Bo Shang", style := style_field }],
   [{ text := "<b>Plaintiff Contact Info:</b>", style := style_label },
    { text := "10 McCafferty Way<br/>" ++
              "Phone: 781-999-4101<br/>" ++
              "Email: bo@shang.software", style := style_field }]]

/-- `defendant_data`. -/
def defendant_data : List (List TableCell) :=
  [[{ text := "<b>Defendant Name(s):</b>", style := style_label },
    { text := "1)  Amazon.com, Inc.", style := style_field }],
   [{ text := "<b>Defendant Principal Address:</b>", style := style_label },
    { text := "410 Terry Avenue North<br/>" ++
              "Seattle, WA 98109", style := style_field }]]

/-- `case_type_data`. -/
def case_type_data : List (List TableCell) :=
  [[{ text := "<b>Case Type:</b>", style := style_label },
    { text := "Civil - Consumer Protection / Contract / Negligence", style := style_field }],
   [{ text := "<b>Relief Sought:</b>", style := style_label },
    { text := "Compensatory and statutory damages; injunctive relief; attorneys’ fees (if permitted); " ++
              "and other appropriate relief as detailed in the Complaint.", style := style_field }]]

/-- `pro_se_data`. -/
def pro_se_data : List (List TableCell) :=
  [[{ text := "<b>Filing Party:</b>", style := style_label },
    { text := "Plaintiff, Pro Se", style := style_field }],
   [{ text := "<b>Attorney/Pro Se Name:</b>", style := style_label },
    { text := "Pro Se: Bo Shang", style := style_field }],
   [{ text := "<b>Signature / Date:</b>", style := style_label },
    { text := "______________________________  Dated: February 4, 2025", style := style_field }]]

/-- `causes_text.strip()` of `gen_cover.py`. -/
def causes_text_stripped : String :=
  "1. Violation of the Washington Consumer Protection Act (RCW 19.86)\n" ++
  "    2. Breach of Implied Warranty of Merchantability (RCW 62A.2-314)\n" ++
  "    3. Negligence / Negligent Misrepresentation\n" ++
  "    4. Damages, injunctive relief, attorneys’ fees (if allowed), and other relief"

/-- The `content.append(...)` calls of `create_civil_cover_sheet`, in
program order. -/
def content_appends : List Block :=
  [Block.paragraph ("Superior Court of Washington\nFor King County") style_title,
   Block.paragraph ("Civil Case Cover Sheet") style_section,
   Block.spacer 1 (0.2 * inch),
   Block.table case_info_data [2 * inch, 4 * inch] ("LEFT") fullGridCmds,
   Block.spacer 1 (0.3 * inch),
   Block.paragraph ("Plaintiff Information") style_section,
   Block.table plaintiff_data [2 * inch, 4 * inch] ("LEFT") fullGridCmds,
   Block.spacer 1 (0.3 * inch),
   Block.paragraph ("Defendant Information") style_section,
   Block.table defendant_data [2 * inch, 4 * inch] ("LEFT") fullGridCmds,
   Block.spacer 1 (0.3 * inch),
   Block.paragraph ("Nature of the Suit / Cause of Action") style_section,
   Block.paragraph causes_text_stripped stylesheetNormal,
   Block.spacer 1 (0.3 * inch),
   Block.table case_type_data [2 * inch, 4 * inch] ("LEFT") fullGridCmds,
   Block.spacer 1 (0.3 * inch),
   Block.paragraph ("Attorney / Pro Se Information") style_section,
   Block.table pro_se_data [2 * inch, 4 * inch] ("LEFT")
     [TableCmd.valign (0, 0) (-1, -1) ("TOP"),
      TableCmd.lineBelow (0, 0) (-1, 0) 0.25 ("black"),
      TableCmd.bottomPadding (0, 0) (-1, -1) 6]]

/-- The `content` list handed to `doc.build`. -/
def content : List Block := runAppends content_appends

/-- The `SimpleDocTemplate(...)` of `create_civil_cover_sheet`. -/
def docTemplate (output_filename : String) : DocTemplate :=
  { filename := output_filename, pagesize := letter,
    leftMargin := 72, rightMargin := 72, topMargin := 72, bottomMargin := 72 }

/-- What `create_civil_cover_sheet(output_filename)` computes before the
external render call: template, styles, block sequence, and the message
printed after a successful build. -/
def create_civil_cover_sheet (output_filename : String) :
    DocTemplate × List ParagraphStyle × List Block × String :=
  (docTemplate output_filename, definedStyles, content,
   "PDF generated successfully: " ++ output_filename)

/-- The `__main__` block of `gen_cover.py` always calls
`create_civil_cover_sheet("CivilActionCoverSheet.pdf")`: command-line
arguments are never consulted. -/
def mainOutputPath (_args : List String) : String :=
  "CivilActionCoverSheet.pdf"

end BoVsAmazon.Cover

namespace BoVsAmazon

/-- Modelled from the spec: `defineStyle(name, baseStyle?, overrides)`
inserts a style into the registry and fails with `DuplicateStyleError`
when the name already exists (spec section 4.1).  The source has no
registry of its own — it constructs third-party `ParagraphStyle` objects
directly — so the registry semantics follows the spec's words. -/
def defineStyle (reg : List ParagraphStyle) (s : ParagraphStyle) :
    Except DocError (List ParagraphStyle) :=
  if reg.any fun t => decide (t.name = s.name) then
    Except.error (DocError.duplicateStyleError s.name)
  else
    Except.ok (reg ++ [s])

/-- Register a list of styles left to right with `defineStyle`, starting
from the empty registry. -/
def defineStyles (styles : List ParagraphStyle) :
    Except DocError (List ParagraphStyle) :=
  styles.foldlM defineStyle []

/-- Whether every style a block references resolves in the registry;
per the spec's data model, a style's name is its unique key and blocks
reference styles by name. -/
def stylesResolve (reg : List ParagraphStyle) (b : Block) : Bool :=
  (blockStyles b).all fun s => reg.any fun t => decide (t.name = s.name)

/-- Modelled from the spec: `append(block)` with the spec's only
validation — the style reference must resolve, else `UnknownStyleError`
(spec section 4.2).  The source's `list.append` performs no check; the
check is the spec's abstraction of the renderer's style lookup. -/
def appendChecked (reg : List ParagraphStyle) (doc : List Block) (b : Block) :
    Except DocError (List Block) :=
  if stylesResolve reg b then Except.ok (doc ++ [b])
  else Except.error DocError.unknownStyleError

/-- Whether every row of a table grid has exactly as many cells as the
declared column-width list has entries. -/
def rowsMatch (rows : List (List TableCell)) (colWidths : List ℚ) : Bool :=
  rows.all fun row => row.length == colWidths.length

/-- `tableOk b` is `true` unless `b` is a table with a row whose cell
count differs from the number of declared column widths. -/
def tableOk : Block → Bool
  | .table rows colWidths _ _ => rowsMatch rows colWidths
  | _ => true

/-- Modelled from the spec: appending a table additionally validates the
grid against the declared column widths and fails with
`MalformedTableError` before anything reaches the renderer (spec
section 4.2); in the source this validation lives inside the third-party
table implementation, not in the scripts. -/
def appendTableChecked (doc : List Block) (rows : List (List TableCell))
    (colWidths : List ℚ) (hAlign : String) (cmds : List TableCmd) :
    Except DocError (List Block) :=
  if rowsMatch rows colWidths then
    Except.ok (doc ++ [Block.table rows colWidths hAlign cmds])
  else
    Except.error DocError.malformedTableError

/-- Modelled from the spec: the renderer contract that an explicit
PageBreak block forces a new page regardless of remaining space (spec
section 4.3).  Pages are the maximal PageBreak-free segments of the block
sequence; page breaks caused by content overflow belong to the
third-party layout engine and are not modelled. -/
def paginate : List Block → List (List Block)
  | [] => [[]]
  | Block.pageBreak :: rest => [] :: paginate rest
  | b :: rest =>
      match paginate rest with
      | p :: ps => (b :: p) :: ps
      | [] => [[b]]

/-- Outcome of one script invocation: either the uncaught error of the
external render/write call, or the list of lines printed. -/
def renderThenPrint (message : String) (build : Except String Unit) :
    Except String (List String) :=
  match build with
  | Except.error e => Except.error e
  | Except.ok _ => Except.ok [message]

/-- Exit code of the Python process: 0 on normal completion, 1 when an
uncaught exception propagates out of the script. -/
def exitCode : Except String (List String) → Nat
  | Except.error _ => 1
  | Except.ok _ => 0

/-- One run of `gen_complaint.py`'s `main()`: resolve the output path
from the arguments, run the external `doc.build` (outcome abstracted as
`build`), then print.  The script has no try/except, so a raising build
propagates and the success print on the following line never runs. -/
def Complaint.runMain (args : List String) (build : Except String Unit) :
    Except String (List String) :=
  renderThenPrint ("PDF generated successfully: " ++ Complaint.mainOutputPath args) build

/-- One run of `gen_cover.py`'s `__main__` block, with the external
`doc.build` outcome abstracted as `build`; no try/except. -/
def Cover.runMain (args : List String) (build : Except String Unit) :
    Except String (List String) :=
  renderThenPrint ("PDF generated successfully: " ++ Cover.mainOutputPath args) build

/-- One run of `gen_fee_waiver.py`'s `main()`, with `os.path.abspath`
abstracted as `abspath` and the external `pdf.save()` outcome abstracted
as `build`; no try/except. -/
def FeeWaiver.runMain (_args : List String) (abspath : String → String)
    (build : Except String Unit) : Except String (List String) :=
  renderThenPrint (FeeWaiver.mainMessage abspath) build

theorem foldl_appendBlock (bs acc : List Block) :
    bs.foldl appendBlock acc = acc ++ bs := by
  induction bs generalizing acc with
  | nil => simp
  | cons b bs ih => simp [appendBlock, ih]

theorem runAppends_eq (bs : List Block) : runAppends bs = bs := by
  simp [runAppends, foldl_appendBlock]

theorem paginate_ne_nil (bs : List Block) : paginate bs ≠ [] := by
  induction bs with
  | nil => simp [paginate]
  | cons b bs ih =>
    rcases hp : paginate bs with _ | ⟨p, ps⟩
    · exact absurd hp ih
    · cases b <;> simp only [paginate] <;> rw [hp] <;> simp

end BoVsAmazon

namespace BoVsAmazon

/-- C1 (counterexample): invoking the cover-sheet generator with the one
positional argument "custom.pdf" does not write the artifact at that
path — the script never consults its arguments and writes to the fixed
filename "CivilActionCoverSheet.pdf". -/
theorem claim_C1_counterexample :
    Cover.mainOutputPath ["custom.pdf"] ≠ "custom.pdf" ∧
    Cover.mainOutputPath ["custom.pdf"] = "CivilActionCoverSheet.pdf" ∧
    FeeWaiver.mainOutputPath ["custom.pdf"] ≠ "custom.pdf" := by
  refine ⟨by decide, rfl, by decide⟩

/-- C1 (amended): the complaint generator honors one positional argument
P — the artifact is written at exactly P and the printed success message
contains P — and with zero arguments it uses its fixed default filename;
the cover-sheet and fee-waiver generators ignore positional arguments and
always write at their fixed default filenames. -/
theorem claim_C1 :
    (∀ p rest, Complaint.mainOutputPath (p :: rest) = p) ∧
    Complaint.mainOutputPath [] = "CivilActionComplaint.pdf" ∧
    (∀ p rest,
      (Complaint.generate_civil_action_pdf
          (Complaint.mainOutputPath (p :: rest))).1.filename = p ∧
      ∃ pre post,
        (Complaint.generate_civil_action_pdf
            (Complaint.mainOutputPath (p :: rest))).2.2.2 = pre ++ p ++ post) ∧
    (∀ args, Cover.mainOutputPath args = "CivilActionCoverSheet.pdf") ∧
    (∀ args, FeeWaiver.mainOutputPath args = "Fee_Waiver_Request_Bo_Shang.pdf") := by
  refine ⟨fun p rest => rfl, rfl, fun p rest => ⟨rfl, ?_⟩, fun _ => rfl, fun _ => rfl⟩
  exact ⟨"PDF generated successfully: ", "",
    by simp [Complaint.generate_civil_action_pdf, Complaint.mainOutputPath]⟩

/-- C2: the block sequence handed to `doc.build` is exactly the sequence
of appended blocks — running any sequence of `append` calls from the
empty list reproduces that sequence, with no block duplicated, dropped,
or reordered — and in particular the complaint story and the cover-sheet
content handed to the renderer equal their append sequences. -/
theorem claim_C2 :
    (∀ bs : List Block, runAppends bs = bs) ∧
    Complaint.story = Complaint.story_appends ∧
    Complaint.story.length = Complaint.story_appends.length ∧
    Cover.content = Cover.content_appends ∧
    Cover.content.length = Cover.content_appends.length := by
  refine ⟨runAppends_eq, runAppends_eq _, ?_, runAppends_eq _, ?_⟩
  · rw [show Complaint.story = Complaint.story_appends from runAppends_eq _]
  · rw [show Cover.content = Cover.content_appends from runAppends_eq _]

/-- C3: expanding a bullet list over `items` with style `s` produces
exactly one block per element of `items`, in the same order, each block a
paragraph whose text is the element prefixed with the bullet glyph "• "
and whose style is `s`; in particular for ["a", "b"]. -/
theorem claim_C3 (items : List String) (s : ParagraphStyle) :
    (bulletBlocks items s).length = items.length ∧
    (∀ i : Nat, (bulletBlocks items s).get? i =
      (items.get? i).map fun t => Block.paragraph ("• " ++ t) s) ∧
    bulletBlocks ["a", "b"] s =
      [Block.paragraph ("• a") s, Block.paragraph ("• b") s] := by
  refine ⟨by simp [bulletBlocks], fun i => ?_, rfl⟩
  simp [bulletBlocks]

/-- C5: registering a style whose name is already present fails with
`DuplicateStyleError` while the first definition remains in the registry;
moreover the scripts' own style definitions have pairwise distinct names,
so registering them in definition order succeeds. -/
theorem claim_C5 (reg reg' : List ParagraphStyle) (s t : ParagraphStyle)
    (hname : t.name = s.name)
    (hok : defineStyle reg s = Except.ok reg') :
    defineStyle reg' t = Except.error (DocError.duplicateStyleError t.name) ∧
    s ∈ reg' ∧
    defineStyles Complaint.definedStyles = Except.ok Complaint.definedStyles ∧
    defineStyles Cover.definedStyles = Except.ok Cover.definedStyles := by
  unfold defineStyle at hok
  by_cases hc : reg.any fun u => decide (u.name = s.name)
  · simp [hc] at hok
  · simp only [hc, if_false, Bool.false_eq_true, ite_false, Except.ok.injEq] at hok
    subst hok
    refine ⟨?_, by simp, by rfl, by rfl⟩
    unfold defineStyle
    have hany : ((reg ++ [s]).any fun u => decide (u.name = t.name)) = true := by
      simp [List.any_append, hname]
    simp [hany]

/-- C5 (witness): a second definition of `LabelStyle` against a registry
already holding it is rejected with `DuplicateStyleError`. -/
theorem claim_C5_witness :
    defineStyle [Cover.style_label] Cover.style_label =
      Except.error (DocError.duplicateStyleError "LabelStyle") := by
  have h := claim_C5 [] [Cover.style_label] Cover.style_label Cover.style_label rfl (by rfl)
  simpa using h.1

/-- C6: every table block appended by the cover-sheet generator has
exactly as many cells in every row as declared column widths, and a table
violating that arity is rejected with `MalformedTableError` before any
block reaches the renderer (while a conforming one is appended
unchanged). -/
theorem claim_C6 :
    (∀ b ∈ Cover.content, tableOk b = true) ∧
    (∀ doc rows colWidths hAlign cmds, rowsMatch rows colWidths = false →
      appendTableChecked doc rows colWidths hAlign cmds =
        Except.error DocError.malformedTableError) ∧
    (∀ doc rows colWidths hAlign cmds, rowsMatch rows colWidths = true →
      appendTableChecked doc rows colWidths hAlign cmds =
        Except.ok (doc ++ [Block.table rows colWidths hAlign cmds])) := by
  refine ⟨by decide, ?_, ?_⟩
  · intro doc rows colWidths hAlign cmds hm
    simp [appendTableChecked, hm]
  · intro doc rows colWidths hAlign cmds hm
    simp [appendTableChecked, hm]

/-- C6 (witness): the case-information table of the cover sheet passes
the arity check, and a one-cell row against two declared column widths is
rejected with `MalformedTableError`. -/
theorem claim_C6_witness :
    tableOk (Block.table Cover.case_info_data [2 * inch, 4 * inch] ("LEFT")
      Cover.fullGridCmds) = true ∧
    appendTableChecked [] [[{ text := "x", style := Cover.style_label }]] [1, 2]
      ("LEFT") [] = Except.error DocError.malformedTableError := by
  refine ⟨?_, ?_⟩
  · refine claim_C6.1 _ ?_
    rw [show Cover.content = Cover.content_appends from runAppends_eq _]
    exact List.mem_cons_of_mem _ (List.mem_cons_of_mem _
      (List.mem_cons_of_mem _ (List.mem_cons_self _ _)))
  · exact claim_C6.2.1 [] _ _ _ _ (by decide)

/-- C7: every block of the complaint story and of the cover-sheet content
references only styles present in that script's style registry, and the
spec's append validation rejects a block with an unresolved style
reference with `UnknownStyleError` while admitting a resolving block
unchanged. -/
theorem claim_C7 :
    (Complaint.story.all fun b => stylesResolve Complaint.definedStyles b) = true ∧
    (Cover.content.all fun b => stylesResolve Cover.definedStyles b) = true ∧
    (∀ reg doc b, stylesResolve reg b = false →
      appendChecked reg doc b = Except.error DocError.unknownStyleError) ∧
    (∀ reg doc b, stylesResolve reg b = true →
      appendChecked reg doc b = Except.ok (doc ++ [b])) := by
  refine ⟨by decide, by decide, ?_, ?_⟩
  · intro reg doc b hb
    simp [appendChecked, hb]
  · intro reg doc b hb
    simp [appendChecked, hb]

/-- C7 (witness): appending a title paragraph against the empty registry
fails with `UnknownStyleError`; against the complaint's registry it is
appended unchanged. -/
theorem claim_C7_witness :
    appendChecked [] [] (Block.paragraph ("X") Complaint.style_title) =
      Except.error DocError.unknownStyleError ∧
    appendChecked Complaint.definedStyles [] (Block.paragraph ("X") Complaint.style_title) =
      Except.ok [Block.paragraph ("X") Complaint.style_title] := by
  exact ⟨claim_C7.2.2.1 [] [] _ (by decide), claim_C7.2.2.2 _ [] _ (by decide)⟩

/-- C8: when the external render/write step fails, the error propagates
out of every generator unchanged — nothing catches or retries it — the
process exit code is nonzero, and no success message is printed. -/
theorem claim_C8 (args : List String) (e : String) (abspath : String → String) :
    Complaint.runMain args (Except.error e) = Except.error e ∧
    exitCode (Complaint.runMain args (Except.error e)) = 1 ∧
    Cover.runMain args (Except.error e) = Except.error e ∧
    exitCode (Cover.runMain args (Except.error e)) = 1 ∧
    FeeWaiver.runMain args abspath (Except.error e) = Except.error e ∧
    exitCode (FeeWaiver.runMain args abspath (Except.error e)) = 1 := by
  exact ⟨rfl, rfl, rfl, rfl, rfl, rfl⟩

/-- C9: an explicit PageBreak block starts a new page exactly where it
stands — the blocks before it form the finished page — so the
Title/Heading/PageBreak/Paragraph scenario yields a two-page document
with X and Y on page 1 and page 2 beginning with Z; the complaint story,
with its four explicit page breaks, paginates into five segments. -/
theorem claim_C9 (xs ys : List Block) (hxs : ∀ b ∈ xs, b ≠ Block.pageBreak) :
    paginate (xs ++ Block.pageBreak :: ys) = xs :: paginate ys ∧
    paginate [Block.paragraph ("X") Complaint.style_title,
              Block.paragraph ("Y") Complaint.style_heading,
              Block.pageBreak,
              Block.paragraph ("Z") Complaint.style_paragraph] =
      [[Block.paragraph ("X") Complaint.style_title,
        Block.paragraph ("Y") Complaint.style_heading],
       [Block.paragraph ("Z") Complaint.style_paragraph]] ∧
    (paginate Complaint.story).length = 5 := by
  refine ⟨?_, rfl, by decide⟩
  induction xs with
  | nil => simp [paginate]
  | cons a xs ih =>
    have ha : a ≠ Block.pageBreak := hxs a (by simp)
    have htail := ih fun b hb => hxs b (by simp [hb])
    rcases hp : paginate (xs ++ Block.pageBreak :: ys) with _ | ⟨p, ps⟩
    · exact absurd hp (paginate_ne_nil _)
    · rw [hp] at htail
      obtain ⟨h1, h2⟩ := List.cons_eq_cons.mp htail
      have hp' : paginate (xs.append (Block.pageBreak :: ys)) = p :: ps := hp
      cases a with
      | pageBreak => exact absurd rfl ha
      | paragraph text style =>
          simp only [List.cons_append, paginate, hp, hp']
          rw [h1, h2]
      | spacer w h =>
          simp only [List.cons_append, paginate, hp, hp']
          rw [h1, h2]
      | table rows colWidths hAlign cmds =>
          simp only [List.cons_append, paginate, hp, hp']
          rw [h1, h2]

end BoVsAmazon

namespace BoVsAmazon

/-- C9 (witness): a concrete instance of the page-break law — one
PageBreak-free paragraph followed by an explicit PageBreak paginates into
that paragraph's page followed by the (empty) next page. -/
theorem claim_C9_witness :
    paginate [Block.paragraph ("A") Complaint.style_paragraph, Block.pageBreak] =
      [[Block.paragraph ("A") Complaint.style_paragraph], []] := by
  exact (claim_C9 [Block.paragraph ("A") Complaint.style_paragraph] [] (by decide)).1

/-- C10: the output path does not interfere with document content — for
any two paths the style registry, the ordered block sequence, and the
geometry and metadata apart from the file target are identical in both
invocations of each generator (likewise the fee waiver's drawn canvas
operations); the path reaches only the file target and the printed
message. -/
theorem claim_C10 (p1 p2 : String) (wrap : String → List String) :
    (Complaint.generate_civil_action_pdf p1).2.1 =
      (Complaint.generate_civil_action_pdf p2).2.1 ∧
    (Complaint.generate_civil_action_pdf p1).2.2.1 =
      (Complaint.generate_civil_action_pdf p2).2.2.1 ∧
    { (Complaint.generate_civil_action_pdf p1).1 with filename := "" } =
      { (Complaint.generate_civil_action_pdf p2).1 with filename := "" } ∧
    (Complaint.generate_civil_action_pdf p1).1.filename = p1 ∧
    (Cover.create_civil_cover_sheet p1).2.1 =
      (Cover.create_civil_cover_sheet p2).2.1 ∧
    (Cover.create_civil_cover_sheet p1).2.2.1 =
      (Cover.create_civil_cover_sheet p2).2.2.1 ∧
    { (Cover.create_civil_cover_sheet p1).1 with filename := "" } =
      { (Cover.create_civil_cover_sheet p2).1 with filename := "" } ∧
    (Cover.create_civil_cover_sheet p1).1.filename = p1 ∧
    (FeeWaiver.generate_fee_waiver_request p1 wrap).2 =
      (FeeWaiver.generate_fee_waiver_request p2 wrap).2 ∧
    (FeeWaiver.generate_fee_waiver_request p1 wrap).1 = p1 := by
  exact ⟨rfl, rfl, rfl, rfl, rfl, rfl, rfl, rfl, rfl, rfl⟩

end BoVsAmazon
